import Mathlib

/-!
Shallow embedding of `app.py` (Magic-transcript): the transcript acquisition
pipeline (`get_transcript` and its four strategies) and the AI summarization
gateway (`configure_ai_service`, `summarize_with_ai`, the `/summarize` and
`/get_transcript` routes).  External I/O (HTTP responses, backend listings,
caption documents) is modelled by explicit environment records; each strategy
function is a direct translation of the corresponding Python function with its
network results drawn from the environment.
-/

/-- Python truthiness filter for an optional string: Python's `if s:` treats
both `None` and the empty string as false.  `get_transcript` applies this test
to the results of the YouTube Data API, pytube and page-scrape strategies. -/
def pyTruthy (o : Option String) : Option String :=
  match o with
  | some t => if t == "" then none else some t
  | none => none

/-- Python `str.startswith`: prefix test on the character sequence.  Used by
`get_transcript_route` (`transcript.startswith('Error:')`). -/
def pyStartswith (s p : String) : Bool :=
  List.isPrefixOf p.data s.data

/-- One transcript object from `YouTubeTranscriptApi.list_transcripts`:
`language_code` plus the text produced by
`TextFormatter().format_transcript(transcript.fetch())`. -/
structure GTrack where
  language_code : String
  text : String
  deriving Repr, DecidableEq

/-- The listing returned by `YouTubeTranscriptApi.list_transcripts`: the
`_manually_created_transcripts` and `_generated_transcripts` maps, in backend
enumeration order. -/
structure StructuredListing where
  manual : List GTrack
  generated : List GTrack
  deriving Repr, DecidableEq

/-- A pytube caption track: its `code` and the cleaned plain text produced
from `generate_srt_captions()` by the SRT-stripping regex. -/
structure PCap where
  code : String
  text : String
  deriving Repr, DecidableEq

/-- A caption track found in the video page's embedded JSON (`captionTracks`
entry).  `content` models fetching `baseUrl + '&fmt=srv3'` and parsing the
timed-text XML: `none` when `baseUrl` is missing, the fetch fails, the XML
does not parse, or no text nodes are found; otherwise the space-joined
stripped text. -/
structure CTrack where
  kind : String
  vssId : String
  isAutoGenerated : Bool
  languageCode : String
  content : Option String
  deriving Repr, DecidableEq

/-- The transcript selection of the YouTube Transcript API strategy
(`app.py` lines 215-223): only `_generated_transcripts` are considered; with
a language code the first generated track whose `language_code` equals it is
returned, otherwise (match or no match) the first generated track; with no
generated tracks the strategy falls through. -/
def structured_select (generated : List GTrack) (lang : Option String) : Option GTrack :=
  if generated.isEmpty then none
  else
    match lang with
    | some l =>
      match generated.find? (fun tr => tr.language_code == l) with
      | some tr => some tr
      | none => generated.head?
    | none => generated.head?

/-- Result of the YouTube Transcript API strategy given the listing (`none`
models `list_transcripts` raising, which line 224 catches). -/
def structuredResult (st : Option StructuredListing) (lang : Option String) : Option String :=
  match st with
  | none => none
  | some listing => (structured_select listing.generated lang).map (fun tr => tr.text)

/-- Caption choice of `get_transcript_pytube` (lines 113-128):
`captions.get('en', next(iter(captions.values())))` — the `en` track if
present, else the first track; `None` when there are no captions.  The
requested language plays no part. -/
def pytube_select (caps : List PCap) : Option PCap :=
  if caps.isEmpty then none
  else
    match caps.find? (fun c => c.code == "en") with
    | some c => some c
    | none => caps.head?

/-- Result of the pytube strategy (`none` models `YouTube(...)` raising or no
captions). -/
def pytubeResult (caps : Option (List PCap)) : Option String :=
  match caps with
  | none => none
  | some cs => (pytube_select cs).map (fun c => c.text)

/-- Python `str.lower()`, as a character-wise map. -/
def pyLower (s : String) : String :=
  String.mk (s.data.map Char.toLower)

/-- The auto-generated test of `extract_captions_from_video_page` (lines
420-425): `kind.lower() == 'asr'` or `vssId.startswith('a.')` or
`isAutoGenerated == True`. -/
def is_auto_track (t : CTrack) : Bool :=
  pyLower t.kind == "asr" || pyStartswith t.vssId "a." || t.isAutoGenerated

/-- Python `languageCode.split('-')[0]`: the part of the code before the
first hyphen (the whole string when no hyphen occurs). -/
def primarySubtag (s : String) : String :=
  String.mk (s.data.takeWhile (fun c => c != '-'))

/-- Track selection of `extract_captions_from_video_page` (lines 413-446):
with no tracks return `None`; otherwise restrict to auto-generated tracks
when any exist (`target_tracks = auto_captions if auto_captions else
caption_tracks`); with a requested language pick the first target track whose
primary subtag equals it; otherwise the first target track. -/
def select_caption_track (caption_tracks : List CTrack) (lang : Option String) : Option CTrack :=
  if caption_tracks.isEmpty then none
  else
    let auto_captions := caption_tracks.filter is_auto_track
    let target_tracks := if auto_captions.isEmpty then caption_tracks else auto_captions
    let selected :=
      match lang with
      | some l => target_tracks.find? (fun track => primarySubtag track.languageCode == l)
      | none => none
    match selected with
    | some track => some track
    | none => target_tracks.head?

/-- Result of the page-scrape strategy: `none` when the page fetch fails or
no caption data parses (lines 378-415), else the selected track's fetched
caption text. -/
def scrapeResult (scrapeTracks : Option (List CTrack)) (lang : Option String) : Option String :=
  match scrapeTracks with
  | none => none
  | some ts =>
    match select_caption_track ts lang with
    | none => none
    | some track => track.content

/-- The four acquisition strategies of `get_transcript`, named as in the
specification. -/
inductive Strategy where
  | officialApi
  | structuredApi
  | apiClientLib
  | pageScrape
  deriving Repr, DecidableEq

/-- Environment of one `get_transcript` call: `availability` is the
`check_video_availability` outcome (`none` = `(True, None)`, `some msg` =
`(False, msg)`); `officialApi` is the `get_transcript_youtube_api` return
value; the remaining fields are the backend data consumed by the other three
strategies. -/
structure PipelineEnv where
  availability : Option String
  officialApi : Option String
  structured : Option StructuredListing
  pytubeCaps : Option (List PCap)
  scrapeTracks : Option (List CTrack)
  deriving Repr, DecidableEq

/-- The message of `app.py` line 242, returned when every strategy fails. -/
def noCaptionsMsg : String :=
  "Error: Could not retrieve captions. This video might not have captions enabled. Please try a different video that has captions or subtitles."

/-- `get_transcript` (lines 196-246), returning the transcript-or-error
string together with the list of strategies invoked, in invocation order.
Mirrors the source: pre-flight availability check, then the YouTube Data API
(result used when truthy), then the YouTube Transcript API (its return is
unconditional once generated tracks exist), then pytube and the page scrape
(truthy-checked), else the no-captions error message. -/
def get_transcript (env : PipelineEnv) (lang : Option String) : String × List Strategy :=
  match env.availability with
  | some msg => ("Error: " ++ msg, [])
  | none =>
    match pyTruthy env.officialApi with
    | some t => (t, [.officialApi])
    | none =>
      match structuredResult env.structured lang with
      | some t => (t, [.officialApi, .structuredApi])
      | none =>
        match pyTruthy (pytubeResult env.pytubeCaps) with
        | some t => (t, [.officialApi, .structuredApi, .apiClientLib])
        | none =>
          match pyTruthy (scrapeResult env.scrapeTracks lang) with
          | some t => (t, [.officialApi, .structuredApi, .apiClientLib, .pageScrape])
          | none => (noCaptionsMsg, [.officialApi, .structuredApi, .apiClientLib, .pageScrape])

/-- The strategy invocation order hard-coded in `get_transcript`. -/
def strategyOrder : List Strategy :=
  [.officialApi, .structuredApi, .apiClientLib, .pageScrape]

/-- The outcome each strategy would report in a given environment, exactly as
`get_transcript` consumes it (truthiness-filtered where the source applies a
truthiness test). -/
def strategyRes (env : PipelineEnv) (lang : Option String) : Strategy → Option String
  | .officialApi => pyTruthy env.officialApi
  | .structuredApi => structuredResult env.structured lang
  | .apiClientLib => pyTruthy (pytubeResult env.pytubeCaps)
  | .pageScrape => pyTruthy (scrapeResult env.scrapeTracks lang)

/-- Specification-side fallback chain: walk a list of strategy outcomes in
order, count how many were invoked, and return the first success. -/
def runChain : List (Option String) → Nat × Option String
  | [] => (0, none)
  | o :: rest =>
    match o with
    | some t => (1, some t)
    | none =>
      let r := runChain rest
      (r.1 + 1, r.2)

/-- The success/failure classification of `get_transcript_route` (lines
344-348): the transcript string is rejected (HTTP 400, error payload) exactly
when it starts with `Error:`; otherwise the route proceeds with it as the
transcript (and goes on to summarize it, out of scope here). -/
def get_transcript_route_result (env : PipelineEnv) (lang : Option String) : Except String String :=
  let transcript := (get_transcript env lang).1
  if pyStartswith transcript "Error:" then Except.error transcript else Except.ok transcript

example : get_transcript { availability := some "boom", officialApi := some "x", structured := none, pytubeCaps := none, scrapeTracks := none } none = ("Error: boom", []) := by decide

example : get_transcript { availability := none, officialApi := some "x", structured := none, pytubeCaps := none, scrapeTracks := none } none = ("x", [.officialApi]) := by decide

example : get_transcript { availability := none, officialApi := some "", structured := some { manual := [], generated := [{ language_code := "de", text := "D" }, { language_code := "en", text := "E" }] }, pytubeCaps := none, scrapeTracks := none } (some "en") = ("E", [.officialApi, .structuredApi]) := by decide

example : get_transcript { availability := none, officialApi := none, structured := some { manual := [{ language_code := "en", text := "M" }], generated := [] }, pytubeCaps := some [{ code := "fr", text := "F" }, { code := "en", text := "EN" }], scrapeTracks := none } none = ("EN", [.officialApi, .structuredApi, .apiClientLib]) := by decide

example : select_caption_track [{ kind := "", vssId := "", isAutoGenerated := false, languageCode := "fr", content := some "MF" }, { kind := "asr", vssId := "a.en", isAutoGenerated := true, languageCode := "en", content := some "AE" }] (some "fr") = some { kind := "asr", vssId := "a.en", isAutoGenerated := true, languageCode := "en", content := some "AE" } := by decide

example : select_caption_track [{ kind := "asr", vssId := "", isAutoGenerated := true, languageCode := "en-US", content := some "A" }] (some "en-US") = some { kind := "asr", vssId := "", isAutoGenerated := true, languageCode := "en-US", content := some "A" } := by decide

example (msg : String) : pyStartswith ("Error: " ++ msg) "Error:" = true := by
  obtain ⟨m⟩ := msg
  rfl

/-! ## Summarization gateway -/

/-- The process-global library state written by `configure_ai_service`:
`genai.configure(api_key=...)` sets the module-level gemini key and
`openai.api_key = ...` sets the module-level openai key. -/
structure GlobalAI where
  genai_key : Option String
  openai_key : Option String
  deriving Repr, DecidableEq

/-- An `anthropic.Anthropic(api_key=...)` client instance: it carries its key
per object, not in module state. -/
structure AnthropicClient where
  api_key : String
  deriving Repr, DecidableEq

/-- `configure_ai_service` (lines 26-34): for `gemini` and `openai` it writes
the key into process-global library state and returns `None`; for `claude` it
returns a fresh client holding the key and leaves global state alone; any
other service does nothing and returns `None`. -/
def configure_ai_service (service api_key : String) (g : GlobalAI) :
    GlobalAI × Option AnthropicClient :=
  if service == "gemini" then ({ g with genai_key := some api_key }, none)
  else if service == "openai" then ({ g with openai_key := some api_key }, none)
  else if service == "claude" then (g, some { api_key := api_key })
  else (g, none)

/-- The provider completion endpoints `summarize_with_ai` can call. -/
inductive BackendId where
  | geminiCall
  | openaiCall
  | claudeNewCall
  | claudeOldCall
  deriving Repr, DecidableEq

/-- One outbound provider call: which endpoint, the rendered prompt sent, and
the credential the call is authenticated with (the global key for gemini and
openai, the client object's key for claude). -/
structure BackendCall where
  backend : BackendId
  prompt : String
  credential : Option String
  deriving Repr, DecidableEq

/-- Environment of one `summarize_with_ai` call: each backend's response
(`Except.error` models the call raising, which line 89 catches), whether the
anthropic client has the newer `messages` attribute (its absence raises
`AttributeError`, caught at line 80), and each call's wall-clock duration. -/
structure AIEnv where
  geminiResp : Except String String
  openaiResp : Except String String
  claudeNewResp : Except String String
  claudeOldResp : Except String String
  claudeMessagesApi : Bool
  geminiDur : Nat
  openaiDur : Nat
  claudeNewDur : Nat
  claudeOldDur : Nat

/-- The text of `SUMMARY_PROMPT` (lines 38-49) up to its single
`{transcript}` placeholder, which is the final token of the template. -/
def SUMMARY_PROMPT_head : String :=
  "Given a text containing complex information about a specific topic, your role is to act as an expert summarizer with 20 years experience.\n\nStart by reading through the provided content to fully understand its scope and depth. Identify the key themes and critical details that are central to the topic.\n\nNext, create a structured summary by organizing these key points in a logical order. Each point should be clear, concise, and reflect the essential information comprehensively. Please aids users in understanding 80% of a video\x27s content by focusing on the most important 20% of the information, simplifying complex ideas into easy-to-understand terms, making learning more accessible and efficient, and breaking down the content into key points.\n\nPresent these points in a manner that anyone unfamiliar with the material can grasp the main ideas and significance of the topic effortlessly. To apply this summarization, use bullet points or numbered lists to enhance readability and ensure that each key point stands out for easy comprehension.\n\nThe objective is to produce a summary that effectively communicates the core elements of the topic without necessitating a review of the full text.\n\nHere\x27s the text to summarize:\n"

/-- `SUMMARY_PROMPT.format(transcript=transcript)`: the placeholder is the
last token of the template, so rendering appends the transcript verbatim to
the fixed head. -/
def renderSummaryPrompt (transcript : String) : String :=
  SUMMARY_PROMPT_head ++ transcript

/-- `summarize_with_ai` (lines 36-90): configure the service, branch on the
service name, issue the completion call with the rendered prompt, and return
its text; any backend exception is caught at line 89 and returned as the
in-band string `Error in AI summarization: <detail>`.  For the claude service
the newer `messages` call shape is tried and, on `AttributeError` only, the
older `completion` shape; gemini and openai authenticate from the global keys
just written, claude from the per-call client.  An unrecognized service
matches no branch and the function returns Python `None` with no call made.
Returns (return value, global state after the call, outbound calls). -/
def summarize_with_ai (transcript service api_key : String) (g : GlobalAI) (env : AIEnv) :
    Option String × GlobalAI × List BackendCall :=
  let p := renderSummaryPrompt transcript
  let conf := configure_ai_service service api_key g
  let g2 := conf.1
  let ai_client := conf.2
  if service == "gemini" then
    match env.geminiResp with
    | .ok text => (some text, g2, [{ backend := .geminiCall, prompt := p, credential := g2.genai_key }])
    | .error e => (some ("Error in AI summarization: " ++ e), g2, [{ backend := .geminiCall, prompt := p, credential := g2.genai_key }])
  else if service == "openai" then
    match env.openaiResp with
    | .ok text => (some text, g2, [{ backend := .openaiCall, prompt := p, credential := g2.openai_key }])
    | .error e => (some ("Error in AI summarization: " ++ e), g2, [{ backend := .openaiCall, prompt := p, credential := g2.openai_key }])
  else if service == "claude" then
    let cred := ai_client.map (fun c => c.api_key)
    if env.claudeMessagesApi then
      match env.claudeNewResp with
      | .ok text => (some text, g2, [{ backend := .claudeNewCall, prompt := p, credential := cred }])
      | .error e => (some ("Error in AI summarization: " ++ e), g2, [{ backend := .claudeNewCall, prompt := p, credential := cred }])
    else
      match env.claudeOldResp with
      | .ok text => (some text, g2, [{ backend := .claudeOldCall, prompt := p, credential := cred }])
      | .error e => (some ("Error in AI summarization: " ++ e), g2, [{ backend := .claudeOldCall, prompt := p, credential := cred }])
  else
    (none, g2, [])

/-- Modelled wall-clock duration of one endpoint's call. -/
def backendDur (env : AIEnv) : BackendId → Nat
  | .geminiCall => env.geminiDur
  | .openaiCall => env.openaiDur
  | .claudeNewCall => env.claudeNewDur
  | .claudeOldCall => env.claudeOldDur

/-- Time the caller of `summarize_with_ai` spends blocked on provider calls:
the calls are synchronous and sequential, so their durations add. -/
def elapsedTime (env : AIEnv) (calls : List BackendCall) : Nat :=
  (calls.map (fun c => backendDur env c.backend)).sum

/-- Responses of the `/summarize` route (lines 287-301): a JSON error with an
HTTP status, or HTTP 200 with a `summary` field holding `summarize_with_ai`'s
return value (which may be Python `None`). -/
inductive RouteOut where
  | errorResp (msg : String) (code : Nat)
  | okSummary (summary : Option String)
  deriving Repr, DecidableEq

/-- `summarize_transcript` (lines 287-301): read the per-service key from the
session (`if not api_key` treats a missing or empty key as absent, HTTP 401),
else call `summarize_with_ai` and wrap its return value as the `summary`
field of a 200 response. -/
def summarize_transcript (transcript service : String) (sessionKey : Option String)
    (g : GlobalAI) (env : AIEnv) : RouteOut :=
  match pyTruthy sessionKey with
  | none => .errorResp ("No API key found for " ++ service ++ ". Please set an API key first.") 401
  | some api_key => .okSummary (summarize_with_ai transcript service api_key g env).1

/-- A zero-duration, all-success backend environment; concrete theorem inputs
override the fields they exercise. -/
def baseAIEnv : AIEnv :=
  { geminiResp := .ok "", openaiResp := .ok "", claudeNewResp := .ok "",
    claudeOldResp := .ok "", claudeMessagesApi := true,
    geminiDur := 0, openaiDur := 0, claudeNewDur := 0, claudeOldDur := 0 }

/-- The empty global library state (no key configured yet). -/
def emptyGlobal : GlobalAI :=
  { genai_key := none, openai_key := none }

example : (summarize_with_ai "T" "gemini" "k" emptyGlobal { baseAIEnv with geminiResp := .ok "S" }).1 = some "S" := by decide

example : summarize_with_ai "T" "unknown-llm" "k" emptyGlobal baseAIEnv = (none, emptyGlobal, []) := by decide

example : (summarize_with_ai "T" "claude" "k" emptyGlobal { baseAIEnv with claudeMessagesApi := false, claudeOldResp := .error "old boom" }).1 = some ("Error in AI summarization: " ++ "old boom") := by decide

/-! ## Theorems -/

/-- Any string built by `'Error: ' + msg` starts with `Error:`. -/
theorem pyStartswith_error_append (msg : String) :
    pyStartswith ("Error: " ++ msg) "Error:" = true := by
  obtain ⟨m⟩ := msg
  rfl

/-- C2: for every video identifier for which `check_video_availability`
reports the video unavailable with message `msg`, `get_transcript` returns
the in-band error `"Error: " ++ msg` and invokes zero acquisition strategies
(empty invocation trace). -/
theorem c2_preflight_short_circuit (env : PipelineEnv) (lang : Option String) (msg : String)
    (h : env.availability = some msg) :
    get_transcript env lang = ("Error: " ++ msg, []) := by
  simp [get_transcript, h]

/-- C2 witness: a concrete unavailable video (status-code message) yields the
error string and an empty strategy trace. -/
theorem c2_preflight_witness :
    get_transcript { availability := some "Failed to retrieve video. Status code: 404", officialApi := some "T", structured := none, pytubeCaps := none, scrapeTracks := none } none
      = ("Error: " ++ "Failed to retrieve video. Status code: 404", []) :=
  c2_preflight_short_circuit _ none _ rfl

/-- C1 (amended): after the pre-flight check passes, `get_transcript` tries
the strategies in the fixed order OfficialPlatformApi, StructuredApi,
ApiClientLibrary, PageScrape (not StructuredApi first, as claimed); the first
strategy reporting success wins and later strategies are never invoked: the
result is the first success of the ordered outcome chain (else the
no-captions error) and the invocation trace is exactly the order's prefix of
length equal to the number of strategies consulted. -/
theorem c1_chain_order_short_circuit (env : PipelineEnv) (lang : Option String)
    (h : env.availability = none) :
    get_transcript env lang =
      ((runChain (strategyOrder.map (strategyRes env lang))).2.getD noCaptionsMsg,
        strategyOrder.take (runChain (strategyOrder.map (strategyRes env lang))).1) := by
  rcases h1 : pyTruthy env.officialApi with _ | t1 <;>
    rcases h2 : structuredResult env.structured lang with _ | t2 <;>
      rcases h3 : pyTruthy (pytubeResult env.pytubeCaps) with _ | t3 <;>
        rcases h4 : pyTruthy (scrapeResult env.scrapeTracks lang) with _ | t4 <;>
          simp [get_transcript, strategyOrder, strategyRes, runChain, h, h1, h2, h3, h4]

/-- C1 witness: with only the pytube backend able to answer, the chain stops
after three invocations and returns the pytube text. -/
theorem c1_chain_witness :
    (get_transcript { availability := none, officialApi := none, structured := none, pytubeCaps := some [{ code := "en", text := "PT" }], scrapeTracks := none } none
      = ((runChain (strategyOrder.map (strategyRes { availability := none, officialApi := none, structured := none, pytubeCaps := some [{ code := "en", text := "PT" }], scrapeTracks := none } none))).2.getD noCaptionsMsg,
          strategyOrder.take (runChain (strategyOrder.map (strategyRes { availability := none, officialApi := none, structured := none, pytubeCaps := some [{ code := "en", text := "PT" }], scrapeTracks := none } none))).1)) ∧
    get_transcript { availability := none, officialApi := none, structured := none, pytubeCaps := some [{ code := "en", text := "PT" }], scrapeTracks := none } none
      = ("PT", [Strategy.officialApi, Strategy.structuredApi, Strategy.apiClientLib]) :=
  ⟨c1_chain_order_short_circuit _ none rfl, by decide⟩

/-- Environment refuting the claimed strategy order: both the YouTube Data
API strategy (text "A") and the YouTube Transcript API strategy (text "B")
would succeed. -/
def c1cexEnv : PipelineEnv :=
  { availability := none, officialApi := some "A",
    structured := some { manual := [], generated := [{ language_code := "en", text := "B" }] },
    pytubeCaps := none, scrapeTracks := none }

/-- C1 counterexample: the claim puts StructuredApi first in the order.  In
`c1cexEnv` the structured strategy would succeed with "B", yet the code
returns the official-API text "A" with trace `[officialApi]` — the
structured strategy was never invoked, so the claimed order (StructuredApi
before OfficialPlatformApi) is false of the code. -/
theorem c1_claim_counterexample :
    structuredResult c1cexEnv.structured none = some "B" ∧
    get_transcript c1cexEnv none = ("A", [Strategy.officialApi]) ∧
    ("A" : String) ≠ "B" ∧ Strategy.officialApi ≠ Strategy.structuredApi :=
  ⟨by decide, by decide, by decide, by decide⟩

/-- C4 (amended): `get_transcript` never truncates: a successful acquisition
is returned verbatim at its full length, whatever that length is; no ceiling
is applied and no truncation marker exists. -/
theorem c4_no_truncation (env : PipelineEnv) (lang : Option String) (t : String)
    (h : env.availability = none) (h2 : env.officialApi = some t) (h3 : t ≠ "") :
    (get_transcript env lang).1 = t ∧ (get_transcript env lang).1.length = t.length := by
  have hb : (t == "") = false := beq_eq_false_iff_ne.mpr h3
  have hp : pyTruthy env.officialApi = some t := by simp [pyTruthy, h2, hb]
  simp [get_transcript, h, hp]

/-- C4 witness: a concrete short transcript is returned unmodified. -/
theorem c4_no_truncation_witness :
    (get_transcript { availability := none, officialApi := some "hello", structured := none, pytubeCaps := none, scrapeTracks := none } none).1 = "hello" ∧
    (get_transcript { availability := none, officialApi := some "hello", structured := none, pytubeCaps := none, scrapeTracks := none } none).1.length = "hello".length :=
  c4_no_truncation _ none "hello" rfl rfl (by decide)

/-- A transcript of 10001 characters, above the claimed ceiling. -/
def c4tA : String := String.mk (List.replicate 10001 'a')

/-- A transcript of 10020 characters, above the claimed ceiling. -/
def c4tB : String := String.mk (List.replicate 10020 'b')

/-- C4 counterexample: two transcripts longer than the claimed 10,000
character ceiling pass through `get_transcript` unmodified, with lengths
10001 and 10020.  Under the claim both returned lengths would equal the
ceiling plus the length of one fixed truncation marker — but the two
returned lengths differ, so no such fixed marker exists and the claim is
false. -/
theorem c4_claim_counterexample :
    (get_transcript { availability := none, officialApi := some c4tA, structured := none, pytubeCaps := none, scrapeTracks := none } none).1 = c4tA ∧
    (get_transcript { availability := none, officialApi := some c4tB, structured := none, pytubeCaps := none, scrapeTracks := none } none).1 = c4tB ∧
    10000 < c4tA.length ∧ 10000 < c4tB.length ∧ c4tA.length ≠ c4tB.length := by
  have hA : c4tA.length = 10001 := by
    show (List.replicate 10001 'a').length = 10001
    rw [List.length_replicate]
  have hB : c4tB.length = 10020 := by
    show (List.replicate 10020 'b').length = 10020
    rw [List.length_replicate]
  have hAe : (c4tA == "") = false := by rfl
  have hBe : (c4tB == "") = false := by rfl
  refine ⟨?_, ?_, by rw [hA]; decide, by rw [hB]; decide, by rw [hA, hB]; decide⟩
  · simp [get_transcript, pyTruthy, hAe]
  · simp [get_transcript, pyTruthy, hBe]

/-- C10: `get_transcript` signals failure in-band.  (1) A successful
acquisition is returned as-is, and when its text itself starts with `Error:`
the route rejects it as a failure; (2) the route classifies success versus
failure solely by the `Error:`-prefix test on the returned string; (3) every
failure path (pre-flight failure or all four strategies failing) yields a
string starting with `Error:`. -/
theorem c10_inband_error_protocol (env : PipelineEnv) (lang : Option String) (t : String) :
    ((env.availability = none → env.officialApi = some t → t ≠ "" →
        (get_transcript env lang).1 = t ∧
          (pyStartswith t "Error:" = true →
            get_transcript_route_result env lang = Except.error t))) ∧
    (get_transcript_route_result env lang =
      if pyStartswith (get_transcript env lang).1 "Error:" then
        Except.error (get_transcript env lang).1
      else Except.ok (get_transcript env lang).1) ∧
    ((env.availability ≠ none ∨ ∀ s, strategyRes env lang s = none) →
      pyStartswith (get_transcript env lang).1 "Error:" = true) := by
  refine ⟨?_, rfl, ?_⟩
  · intro h h2 h3
    have hb : (t == "") = false := beq_eq_false_iff_ne.mpr h3
    have hp : pyTruthy env.officialApi = some t := by simp [pyTruthy, h2, hb]
    have hres : (get_transcript env lang).1 = t := by simp [get_transcript, h, hp]
    refine ⟨hres, fun hpre => ?_⟩
    simp [get_transcript_route_result, hres, hpre]
  · intro hfail
    rcases hav : env.availability with _ | msg
    · rcases hfail with hne | hall
      · exact absurd hav hne
      · have h1 := hall .officialApi
        have h2 := hall .structuredApi
        have h3 := hall .apiClientLib
        have h4 := hall .pageScrape
        simp only [strategyRes] at h1 h2 h3 h4
        have : (get_transcript env lang).1 = noCaptionsMsg := by
          simp [get_transcript, hav, h1, h2, h3, h4]
        rw [this]
        decide
    · have : (get_transcript env lang).1 = "Error: " ++ msg := by
        simp [get_transcript, hav]
      rw [this]
      exact pyStartswith_error_append msg

/-- A nonempty caption-track list has `isEmpty = false`. -/
theorem filter_ne_nil_isEmpty_false {α : Type} {l : List α} (h : l ≠ []) :
    l.isEmpty = false := by
  cases l with
  | nil => exact absurd rfl h
  | cons a as => rfl

/-- A list whose `is_auto_track` filter is nonempty is itself nonempty. -/
theorem tracks_ne_nil_of_filter {l : List CTrack} (h : l.filter is_auto_track ≠ []) :
    l ≠ [] := by
  intro hc
  rw [hc] at h
  exact h rfl

/-- C3 (amended): the per-strategy language policy the code actually
implements.  StructuredApi considers only auto-generated tracks: with a
preferred code it returns the first generated track whose code equals it
exactly, else the first generated track; manually-created tracks never
influence the choice, even when no language is requested.  PageScrape
restricts to auto-generated tracks whenever any exist (so an exact manual
match can be passed over), matches only the primary subtag of the track code
(not the exact code), and falls back to the first target track.  The
OfficialPlatformApi and ApiClientLibrary strategies ignore the preferred
language altogether. -/
theorem c3_language_selection_policy :
    (∀ (m m' g : List GTrack) (lang : Option String),
        structuredResult (some { manual := m, generated := g }) lang
          = structuredResult (some { manual := m', generated := g }) lang) ∧
    (∀ (g : List GTrack) (l : String) (tr : GTrack),
        g.find? (fun x => x.language_code == l) = some tr →
          structured_select g (some l) = some tr) ∧
    (∀ (g : List GTrack) (l : String), g ≠ [] →
        g.find? (fun x => x.language_code == l) = none →
          structured_select g (some l) = g.head?) ∧
    (∀ (tracks : List CTrack) (lang : Option String) (tr : CTrack),
        tracks.filter is_auto_track ≠ [] →
          select_caption_track tracks lang = some tr → is_auto_track tr = true) ∧
    (∀ (tracks : List CTrack) (l : String) (tr : CTrack),
        (tracks.filter is_auto_track).find? (fun x => primarySubtag x.languageCode == l) = some tr →
          select_caption_track tracks (some l) = some tr) ∧
    (∀ (env : PipelineEnv) (lang lang' : Option String),
        strategyRes env lang .officialApi = strategyRes env lang' .officialApi ∧
        strategyRes env lang .apiClientLib = strategyRes env lang' .apiClientLib) := by
  refine ⟨fun m m' g lang => rfl, ?_, ?_, ?_, ?_, fun env lang lang' => ⟨rfl, rfl⟩⟩
  · intro g l tr h
    have hne : g.isEmpty = false := by
      cases g with
      | nil => simp at h
      | cons a as => rfl
    simp [structured_select, hne, h]
  · intro g l hne hnone
    have hne2 : g.isEmpty = false := filter_ne_nil_isEmpty_false hne
    simp [structured_select, hne2, hnone]
  · intro tracks lang tr hauto hsel
    have hne : tracks.isEmpty = false :=
      filter_ne_nil_isEmpty_false (tracks_ne_nil_of_filter hauto)
    have hae : (tracks.filter is_auto_track).isEmpty = false :=
      filter_ne_nil_isEmpty_false hauto
    rw [select_caption_track] at hsel
    simp only [hne, hae, Bool.false_eq_true, if_false] at hsel
    cases lang with
    | none =>
      have hsel2 : (tracks.filter is_auto_track).head? = some tr := hsel
      have : tr ∈ tracks.filter is_auto_track :=
        List.mem_of_mem_head? (by rw [hsel2]; exact rfl)
      exact (List.mem_filter.mp this).2
    | some l0 =>
      have hsel2 :
          (match (tracks.filter is_auto_track).find?
              (fun track => primarySubtag track.languageCode == l0) with
            | some track => some track
            | none => (tracks.filter is_auto_track).head?) = some tr := hsel
      cases hfind : (tracks.filter is_auto_track).find?
          (fun track => primarySubtag track.languageCode == l0) with
      | some tr2 =>
        rw [hfind] at hsel2
        have : tr2 = tr := by injection hsel2
        subst this
        have := List.mem_of_find?_eq_some hfind
        exact (List.mem_filter.mp this).2
      | none =>
        rw [hfind] at hsel2
        have hsel3 : (tracks.filter is_auto_track).head? = some tr := hsel2
        have : tr ∈ tracks.filter is_auto_track :=
          List.mem_of_mem_head? (by rw [hsel3]; exact rfl)
        exact (List.mem_filter.mp this).2
  · intro tracks l tr hfind
    have hfne : tracks.filter is_auto_track ≠ [] := by
      intro hc
      rw [hc] at hfind
      simp at hfind
    have hne : tracks.isEmpty = false :=
      filter_ne_nil_isEmpty_false (tracks_ne_nil_of_filter hfne)
    have hae : (tracks.filter is_auto_track).isEmpty = false :=
      filter_ne_nil_isEmpty_false hfne
    rw [select_caption_track]
    simp [hne, hae, hfind]

/-- C3 witness: concrete instantiations of the amended policy.  Structured:
an exact generated match is chosen, and with no match the first generated
track is chosen.  Scrape: a primary-subtag match among auto tracks is
chosen, and any selected track is auto-generated whenever auto tracks
exist. -/
theorem c3_language_selection_witness :
    structured_select [{ language_code := "de", text := "D" }, { language_code := "en", text := "E" }] (some "en") = some { language_code := "en", text := "E" } ∧
    structured_select [{ language_code := "de", text := "D" }] (some "fr") = [({ language_code := "de", text := "D" } : GTrack)].head? ∧
    select_caption_track [{ kind := "asr", vssId := "", isAutoGenerated := true, languageCode := "en-US", content := some "A" }] (some "en") = some { kind := "asr", vssId := "", isAutoGenerated := true, languageCode := "en-US", content := some "A" } ∧
    is_auto_track { kind := "asr", vssId := "", isAutoGenerated := true, languageCode := "en-US", content := some "A" } = true :=
  ⟨c3_language_selection_policy.2.1
      [{ language_code := "de", text := "D" }, { language_code := "en", text := "E" }] "en"
      { language_code := "en", text := "E" } (by decide),
   c3_language_selection_policy.2.2.1
      [{ language_code := "de", text := "D" }] "fr" (by decide) (by decide),
   c3_language_selection_policy.2.2.2.2.1
      [{ kind := "asr", vssId := "", isAutoGenerated := true, languageCode := "en-US", content := some "A" }] "en"
      { kind := "asr", vssId := "", isAutoGenerated := true, languageCode := "en-US", content := some "A" } (by decide),
   c3_language_selection_policy.2.2.2.1
      [{ kind := "asr", vssId := "", isAutoGenerated := true, languageCode := "en-US", content := some "A" }] (some "en")
      { kind := "asr", vssId := "", isAutoGenerated := true, languageCode := "en-US", content := some "A" } (by decide)
      (c3_language_selection_policy.2.2.2.2.1
        [{ kind := "asr", vssId := "", isAutoGenerated := true, languageCode := "en-US", content := some "A" }] "en"
        { kind := "asr", vssId := "", isAutoGenerated := true, languageCode := "en-US", content := some "A" } (by decide))⟩

/-- The page's caption tracks for the C3 counterexample: a manually-created
French track and an auto-generated English track. -/
def c3frTrack : CTrack :=
  { kind := "", vssId := "", isAutoGenerated := false, languageCode := "fr", content := some "MANUAL-FR" }

/-- Auto-generated English track for the C3 counterexample. -/
def c3enTrack : CTrack :=
  { kind := "asr", vssId := "a.en", isAutoGenerated := true, languageCode := "en", content := some "AUTO-EN" }

/-- C3 counterexample: with preferred language `fr`, an available track whose
language code exactly matches (`c3frTrack`) exists, yet the page-scrape
selection returns the auto-generated English track instead: matching is
restricted to auto-generated tracks when any exist, so the claim's
"exact match always wins" is false of the code. -/
theorem c3_claim_counterexample :
    c3frTrack.languageCode = "fr" ∧
    select_caption_track [c3frTrack, c3enTrack] (some "fr") = some c3enTrack ∧
    c3enTrack.languageCode ≠ "fr" :=
  ⟨by decide, by decide, by decide⟩

/-- C10 witness: a video whose genuine transcript text is
`Error: genuine transcript` is acquired successfully by the first strategy,
yet the route classifies it as a failure solely because of its prefix. -/
theorem c10_inband_witness :
    (get_transcript { availability := none, officialApi := some "Error: genuine transcript", structured := none, pytubeCaps := none, scrapeTracks := none } none).1 = "Error: genuine transcript" ∧
    get_transcript_route_result { availability := none, officialApi := some "Error: genuine transcript", structured := none, pytubeCaps := none, scrapeTracks := none } none
      = Except.error "Error: genuine transcript" :=
  have h := (c10_inband_error_protocol { availability := none, officialApi := some "Error: genuine transcript", structured := none, pytubeCaps := none, scrapeTracks := none } none "Error: genuine transcript").1 rfl rfl (by decide)
  ⟨h.1, h.2 (by decide)⟩

/-- C5 (amended): for every unrecognized provider selector,
`summarize_with_ai` matches no provider branch, performs zero backend calls,
leaves global state untouched and returns Python `None` — not a typed
UnsupportedProvider error; the `/summarize` route then delivers that `None`
as the `summary` field of a 200 success response. -/
theorem c5_unknown_provider_no_call (t s k : String) (g : GlobalAI) (env : AIEnv)
    (h1 : s ≠ "gemini") (h2 : s ≠ "openai") (h3 : s ≠ "claude") (hk : k ≠ "") :
    summarize_with_ai t s k g env = (none, g, []) ∧
    summarize_transcript t s (some k) g env = RouteOut.okSummary none := by
  have b1 : (s == "gemini") = false := beq_eq_false_iff_ne.mpr h1
  have b2 : (s == "openai") = false := beq_eq_false_iff_ne.mpr h2
  have b3 : (s == "claude") = false := beq_eq_false_iff_ne.mpr h3
  have hmain : summarize_with_ai t s k g env = (none, g, []) := by
    simp [summarize_with_ai, configure_ai_service, b1, b2, b3]
  have hbk : (k == "") = false := beq_eq_false_iff_ne.mpr hk
  refine ⟨hmain, ?_⟩
  simp [summarize_transcript, pyTruthy, hbk, hmain]

/-- C5 witness: the selector `unknown-llm` produces no call, no error value,
and a success-shaped route response with a null summary. -/
theorem c5_unknown_provider_witness :
    summarize_with_ai "T" "unknown-llm" "k" emptyGlobal baseAIEnv = (none, emptyGlobal, []) ∧
    summarize_transcript "T" "unknown-llm" (some "k") emptyGlobal baseAIEnv = RouteOut.okSummary none :=
  c5_unknown_provider_no_call "T" "unknown-llm" "k" emptyGlobal baseAIEnv
    (by decide) (by decide) (by decide) (by decide)

/-- C5 counterexample: the claim says an unrecognized selector fails with an
UnsupportedProvider error.  With selector `unknown-llm` (and a session key
present for it) `summarize_with_ai` returns `None` with zero backend calls,
and the `/summarize` route answers with a 200 success payload whose summary
is null — no error of any kind is produced, so the claim's failure mode is
false of the code (only its no-network-call half holds). -/
theorem c5_claim_counterexample :
    summarize_with_ai "T" "unknown-llm" "k" emptyGlobal baseAIEnv = (none, emptyGlobal, []) ∧
    summarize_transcript "T" "unknown-llm" (some "k") emptyGlobal baseAIEnv = RouteOut.okSummary none ∧
    (∀ m c, RouteOut.okSummary none ≠ RouteOut.errorResp m c) :=
  ⟨by decide, by decide, fun m c h => RouteOut.noConfusion h⟩

/-- C6 (amended): a failing provider call does not surface as a typed error:
line 89 catches the exception and returns the in-band string
`Error in AI summarization: <detail>` through the same channel as a genuine
summary, and the `/summarize` route wraps it as the `summary` field of a 200
success response. -/
theorem c6_inband_failure_string (t k e : String) (g : GlobalAI) (env : AIEnv)
    (hk : k ≠ "") (h : env.geminiResp = .error e) :
    (summarize_with_ai t "gemini" k g env).1 = some ("Error in AI summarization: " ++ e) ∧
    summarize_transcript t "gemini" (some k) g env
      = RouteOut.okSummary (some ("Error in AI summarization: " ++ e)) := by
  have h1 : (summarize_with_ai t "gemini" k g env).1
      = some ("Error in AI summarization: " ++ e) := by
    simp [summarize_with_ai, h]
  have hbk : (k == "") = false := beq_eq_false_iff_ne.mpr hk
  refine ⟨h1, ?_⟩
  simp [summarize_transcript, pyTruthy, hbk, h1]

/-- C6 witness: a gemini backend failure with detail `boom` is delivered as
the in-band error string inside a 200 success response. -/
theorem c6_inband_failure_witness :
    (summarize_with_ai "T" "gemini" "k" emptyGlobal { baseAIEnv with geminiResp := .error "boom" }).1
      = some ("Error in AI summarization: " ++ "boom") ∧
    summarize_transcript "T" "gemini" (some "k") emptyGlobal { baseAIEnv with geminiResp := .error "boom" }
      = RouteOut.okSummary (some ("Error in AI summarization: " ++ "boom")) :=
  c6_inband_failure_string "T" "k" "boom" emptyGlobal { baseAIEnv with geminiResp := .error "boom" }
    (by decide) rfl

/-- C6 counterexample: a provider-side failure is delivered to the caller as
a success value.  A gemini call that raises with detail `boom` and a gemini
call that genuinely returns the summary text `Error in AI summarization:
boom` produce identical gateway results, and the failing call's result is
wrapped by the route in a 200 success payload — the failure is not
distinguishable from a successful summary, refuting the claim. -/
theorem c6_claim_counterexample :
    (summarize_with_ai "T" "gemini" "k" emptyGlobal { baseAIEnv with geminiResp := .error "boom" }).1
      = (summarize_with_ai "T" "gemini" "k" emptyGlobal { baseAIEnv with geminiResp := .ok "Error in AI summarization: boom" }).1 ∧
    summarize_transcript "T" "gemini" (some "k") emptyGlobal { baseAIEnv with geminiResp := .error "boom" }
      = RouteOut.okSummary (some "Error in AI summarization: boom") :=
  ⟨by decide, by decide⟩

/-- C7 (amended): no provider call is wrapped in any timeout executor: the
gateway blocks for each provider call's full duration (the caller-side
elapsed time equals the backend's whole duration, however large), and the
returned value is completely independent of the durations — there is no
deadline after which a Timeout error is produced. -/
theorem c7_no_timeout_executor (t s k : String) (g : GlobalAI) (env : AIEnv)
    (d1 d2 d3 d4 : Nat) :
    elapsedTime env (summarize_with_ai t "gemini" k g env).2.2 = env.geminiDur ∧
    elapsedTime env (summarize_with_ai t "openai" k g env).2.2 = env.openaiDur ∧
    (summarize_with_ai t s k g
        { env with geminiDur := d1, openaiDur := d2, claudeNewDur := d3, claudeOldDur := d4 }).1
      = (summarize_with_ai t s k g env).1 := by
  refine ⟨?_, ?_, ?_⟩
  · cases hg : env.geminiResp <;>
      simp [summarize_with_ai, hg, elapsedTime, backendDur]
  · cases ho : env.openaiResp <;>
      simp [summarize_with_ai, ho, elapsedTime, backendDur]
  · cases env
    rfl

/-- C7 counterexample: a provider call lasting 1000000000 time units is not
cut off by any deadline: the gateway blocks for the full 1000000000 units
and then returns the provider's own result; at no point is a Timeout error
produced (the interface has no such value), refuting the claim that the
caller receives a Timeout immediately rather than blocking. -/
theorem c7_claim_counterexample :
    (summarize_with_ai "T" "gemini" "k" emptyGlobal { baseAIEnv with geminiResp := .ok "SUMMARY", geminiDur := 1000000000 }).1
      = some "SUMMARY" ∧
    elapsedTime { baseAIEnv with geminiResp := .ok "SUMMARY", geminiDur := 1000000000 }
        (summarize_with_ai "T" "gemini" "k" emptyGlobal { baseAIEnv with geminiResp := .ok "SUMMARY", geminiDur := 1000000000 }).2.2
      = 1000000000 :=
  ⟨by decide, by decide⟩

/-- C8 (amended): only the claude provider receives its credential purely
per call (a fresh client object carrying the key; global state unchanged and
every outbound claude call authenticated with the per-call key).  The gemini
and openai providers instead write the caller's credential into
process-global library state, from which their calls authenticate. -/
theorem c8_credential_handling (k t : String) (g : GlobalAI) (env : AIEnv) :
    configure_ai_service "claude" k g = (g, some { api_key := k }) ∧
    (configure_ai_service "gemini" k g).1 = { g with genai_key := some k } ∧
    (configure_ai_service "openai" k g).1 = { g with openai_key := some k } ∧
    (summarize_with_ai t "claude" k g env).2.1 = g ∧
    ((summarize_with_ai t "claude" k g env).2.2.all (fun c => c.credential == some k)) = true := by
  refine ⟨rfl, rfl, rfl, ?_, ?_⟩
  · cases hb : env.claudeMessagesApi <;>
      cases hn : env.claudeNewResp <;>
        cases ho : env.claudeOldResp <;>
          simp [summarize_with_ai, configure_ai_service, hb, hn, ho]
  · cases hb : env.claudeMessagesApi <;>
      cases hn : env.claudeNewResp <;>
        cases ho : env.claudeOldResp <;>
          simp [summarize_with_ai, configure_ai_service, hb, hn, ho]

/-- C8 counterexample: the credential IS written into process-global state:
configuring openai with `key-A` mutates the global key slot, and a second
request configuring openai with `key-B` overwrites it — so two requests with
different credentials do affect each other's credential, refuting the
claim. -/
theorem c8_claim_counterexample :
    (configure_ai_service "openai" "key-A" emptyGlobal).1
      = { genai_key := none, openai_key := some "key-A" } ∧
    (configure_ai_service "openai" "key-A" emptyGlobal).1 ≠ emptyGlobal ∧
    (configure_ai_service "openai" "key-B" { genai_key := none, openai_key := some "key-A" }).1
      = { genai_key := none, openai_key := some "key-B" } ∧
    ({ genai_key := none, openai_key := some "key-B" } : GlobalAI)
      ≠ { genai_key := none, openai_key := some "key-A" } :=
  ⟨by decide, by decide, by decide, by decide⟩

/-- C9: the rendered prompt is the fixed template head followed by the
transcript, so the transcript text appears verbatim as a contiguous
substring (here: a suffix); and every backend call any service issues
carries exactly this same rendering — provider choice never changes the
prompt. -/
theorem c9_prompt_round_trip (t s k : String) (g : GlobalAI) (env : AIEnv) :
    renderSummaryPrompt t = SUMMARY_PROMPT_head ++ t ∧
    (∃ p, renderSummaryPrompt t = p ++ t) ∧
    ((summarize_with_ai t s k g env).2.2.all
        (fun c => c.prompt == renderSummaryPrompt t)) = true := by
  refine ⟨rfl, ⟨SUMMARY_PROMPT_head, rfl⟩, ?_⟩
  cases b1 : s == "gemini" <;> cases b2 : s == "openai" <;> cases b3 : s == "claude" <;>
    cases hb : env.claudeMessagesApi <;>
      cases h1 : env.geminiResp <;> cases h2 : env.openaiResp <;>
        cases h3 : env.claudeNewResp <;> cases h4 : env.claudeOldResp <;>
          simp [summarize_with_ai, b1, b2, b3, hb, h1, h2, h3, h4]
